import Mathlib

/-!
# Verification of the emailverify node SDK client

A shallow embedding of `src/client.ts` and `src/errors.ts` from the
emailverify node SDK, together with proofs about the retry/error-mapping
pipeline, the constructor, the bulk-job helpers and the webhook signature
check.

Modelling conventions:

* JavaScript numbers that may be `NaN` are modelled as `Option Int`
  (`none` = `NaN`); plain non-negative integers as `Nat`.
* JavaScript strings handed to `Buffer.from` are modelled at the byte
  level as `List Nat` (one entry per byte of the UTF-8 encoding).
* Fallible computations return `Except`.
* The HTTP server is modelled as a function from the attempt number
  (starting at 1, as in `request`) to the observed response.
-/

namespace EmailVerifySDK

/-- JavaScript `x || d` for numbers: `0` and `NaN` (modelled `none`) are
falsy and give the default. -/
def jsOrNum (x : Option Int) (d : Int) : Int :=
  match x with
  | none => d
  | some v => if v = 0 then d else v

/-- JavaScript `x || d` for an optional string: `undefined`/`null`
(`none`) and the empty string are falsy and give the default. -/
def jsOrStr (x : Option String) (d : String) : String :=
  match x with
  | none => d
  | some s => if s = "" then d else s

/-- Whitespace skipped by JavaScript `parseInt`. -/
def isJsWhitespace (c : Char) : Bool :=
  c == ' ' || c == '\t' || c == '\n' || c == '\r'

/-- Decimal value of a digit string. -/
def digitsVal (cs : List Char) : Nat :=
  cs.foldl (fun a c => a * 10 + (c.toNat - 48)) 0

/-- JavaScript `parseInt(s, 10)`: skip leading whitespace, optional
sign, then the longest digit prefix; `NaN` (`none`) when no digit is
found. Trailing garbage is ignored, exactly as in JS. -/
def jsParseInt (s : String) : Option Int :=
  let cs := s.data.dropWhile isJsWhitespace
  match cs with
  | '-' :: rest =>
      let ds := rest.takeWhile Char.isDigit
      if ds.isEmpty then none else some (-(digitsVal ds : Int))
  | '+' :: rest =>
      let ds := rest.takeWhile Char.isDigit
      if ds.isEmpty then none else some (digitsVal ds)
  | other =>
      let ds := other.takeWhile Char.isDigit
      if ds.isEmpty then none else some (digitsVal ds)

/-! ## Error taxonomy (`src/errors.ts`)

Each subclass of `EmailVerifyError` fixes a `code` and `statusCode`;
`RateLimitError` additionally carries `retryAfter` (a JS number, hence
possibly `NaN`, modelled `Option Int`). The subclass identity
(`error.name` / the runtime class) is the `kind` discriminator. -/

inductive ErrKind where
  | base
  | authentication
  | rateLimit
  | validation
  | insufficientCredits
  | notFound
  | timedOut
deriving Repr, DecidableEq

structure EVError where
  kind : ErrKind
  message : String
  code : String
  statusCode : Nat
  details : Option String
  retryAfter : Option Int
deriving Repr, DecidableEq

/-- `new EmailVerifyError(message, code, statusCode, details)`. -/
def mkEmailVerifyError (message code : String) (statusCode : Nat)
    (details : Option String) : EVError :=
  ⟨ErrKind.base, message, code, statusCode, details, none⟩

/-- `new AuthenticationError(message)`. -/
def mkAuthenticationError (message : String) : EVError :=
  ⟨ErrKind.authentication, message, "INVALID_API_KEY", 401, none, none⟩

/-- `new RateLimitError(message, retryAfter)`. -/
def mkRateLimitError (message : String) (retryAfter : Option Int) : EVError :=
  ⟨ErrKind.rateLimit, message, "RATE_LIMIT_EXCEEDED", 429, none, retryAfter⟩

/-- `new ValidationError(message, details)`. -/
def mkValidationError (message : String) (details : Option String) : EVError :=
  ⟨ErrKind.validation, message, "INVALID_REQUEST", 400, details, none⟩

/-- `new InsufficientCreditsError(message)`. -/
def mkInsufficientCreditsError (message : String) : EVError :=
  ⟨ErrKind.insufficientCredits, message, "INSUFFICIENT_CREDITS", 403, none, none⟩

/-- `new NotFoundError(message)`. -/
def mkNotFoundError (message : String) : EVError :=
  ⟨ErrKind.notFound, message, "NOT_FOUND", 404, none, none⟩

/-- `new TimeoutError(message)`. -/
def mkTimeoutError (message : String) : EVError :=
  ⟨ErrKind.timedOut, message, "TIMEOUT", 504, none, none⟩

/-- Generic transport failure raised by the `catch` block of `request`:
`new EmailVerifyError('Network error: ...', 'NETWORK_ERROR', 0)`. -/
def mkNetworkError (message : String) : EVError :=
  mkEmailVerifyError ("Network error: " ++ message) "NETWORK_ERROR" 0 none

/-! ## HTTP responses as seen by `request` -/

/-- The `{ code, message, details }` object of the
`{ error: ApiError }` error-body convention. -/
structure ApiErrorObj where
  code : String
  message : String
  details : Option String
deriving Repr, DecidableEq

/-- One HTTP response. `err` is the parsed error body (`none` when the
body is not JSON or has no `error` field); `jsonBody` is the abstract
success payload (`none` when the body of a success response is not valid
JSON). `retryAfterHeader` is `headers.get('Retry-After')`. -/
structure Resp where
  status : Nat
  statusText : String
  retryAfterHeader : Option String
  err : Option ApiErrorObj
  jsonBody : Option String
deriving Repr, DecidableEq

/-- `response.ok` of the fetch API: status in the range 200-299. -/
def respOk (status : Nat) : Bool :=
  200 ≤ status && status < 300

/-- `error?.message || response.statusText` in `handleErrorResponse`. -/
def respMessage (r : Resp) : String :=
  match r.err with
  | some e => if e.message = "" then r.statusText else e.message
  | none => r.statusText

/-- `error?.code || 'UNKNOWN_ERROR'` in `handleErrorResponse`. -/
def respCode (r : Resp) : String :=
  match r.err with
  | some e => if e.code = "" then "UNKNOWN_ERROR" else e.code
  | none => "UNKNOWN_ERROR"

deriving instance DecidableEq for Except

/-- Outcome of one `request(...)` call chain: the returned value or the
raised error, plus the observable trace — how many HTTP calls `fetch`
made and which sleeps (in milliseconds) were performed, in order. -/
structure RunResult where
  outcome : Except EVError (Option String)
  calls : Nat
  sleeps : List Int
deriving Repr, DecidableEq

/-- The retry statuses of `handleErrorResponse`. -/
def retryableStatus (s : Nat) : Bool :=
  s == 429 || s == 500 || s == 502 || s == 503

/-- `request(method, path, body, attempt)` together with the inlined
`handleErrorResponse`. `server i` is the response to the `i`-th HTTP
call (`i` = the `attempt` counter, starting at 1).

Two behaviours of the source are worth flagging because they are easy
to misread:

* `request` calls `await this.handleErrorResponse(...)` and DISCARDS
  its value. When a retry eventually succeeds, `handleErrorResponse`
  returns that success, after which `request` falls through to
  `return await response.json()` on the ORIGINAL non-ok response —
  whose body stream was already consumed by `handleErrorResponse`'s
  own `response.json()`. Per the fetch specification a second read
  rejects with a `TypeError`, which the `catch` block converts to the
  generic `NETWORK_ERROR` taxonomy error. So an eventual success of a
  retried call is never returned: it surfaces as a network error.
  Eventual failures, by contrast, are `EmailVerifyError`s and are
  rethrown unchanged.
* a success response whose body is not valid JSON also lands in the
  `catch` block, i.e. becomes the generic `NETWORK_ERROR`. -/
def requestFrom (retries : Nat) (server : Nat → Resp) (attempt : Nat) :
    RunResult :=
  let r := server attempt
  if respOk r.status then
    if r.status = 204 then ⟨Except.ok none, 1, []⟩
    else
      match r.jsonBody with
      | some b => ⟨Except.ok (some b), 1, []⟩
      | none =>
          ⟨Except.error (mkNetworkError "Unexpected end of JSON input"), 1, []⟩
  else
    let message := respMessage r
    let code := respCode r
    if r.status = 401 then
      ⟨Except.error (mkAuthenticationError message), 1, []⟩
    else if r.status = 403 then
      if code = "INSUFFICIENT_CREDITS" then
        ⟨Except.error (mkInsufficientCreditsError message), 1, []⟩
      else
        ⟨Except.error (mkEmailVerifyError message code 403 none), 1, []⟩
    else if r.status = 404 then
      ⟨Except.error (mkNotFoundError message), 1, []⟩
    else if r.status = 429 then
      let retryAfter := jsParseInt (jsOrStr r.retryAfterHeader "0")
      if _h : attempt < retries then
        let sleepMs := jsOrNum retryAfter ((2 : Int) ^ attempt) * 1000
        let inner := requestFrom retries server (attempt + 1)
        match inner.outcome with
        | Except.error e =>
            ⟨Except.error e, inner.calls + 1, sleepMs :: inner.sleeps⟩
        | Except.ok _ =>
            ⟨Except.error (mkNetworkError "Body is unusable"),
              inner.calls + 1, sleepMs :: inner.sleeps⟩
      else
        ⟨Except.error (mkRateLimitError message retryAfter), 1, []⟩
    else if r.status = 400 then
      ⟨Except.error (mkValidationError message (r.err.bind ApiErrorObj.details)),
        1, []⟩
    else if r.status = 500 ∨ r.status = 502 ∨ r.status = 503 then
      if _h : attempt < retries then
        let sleepMs := ((2 : Int) ^ attempt) * 1000
        let inner := requestFrom retries server (attempt + 1)
        match inner.outcome with
        | Except.error e =>
            ⟨Except.error e, inner.calls + 1, sleepMs :: inner.sleeps⟩
        | Except.ok _ =>
            ⟨Except.error (mkNetworkError "Body is unusable"),
              inner.calls + 1, sleepMs :: inner.sleeps⟩
      else
        ⟨Except.error (mkEmailVerifyError message code r.status none), 1, []⟩
    else
      ⟨Except.error (mkEmailVerifyError message code r.status none), 1, []⟩
termination_by retries - attempt
decreasing_by
  all_goals omega

/-- A public method call: `request` starts with `attempt = 1`. -/
def runRequest (retries : Nat) (server : Nat → Resp) : RunResult :=
  requestFrom retries server 1

/-! ## The `EmailVerify` class: constructor and domain methods -/

def DEFAULT_BASE_URL : String := "https://api.emailverify.ai/v1"
def DEFAULT_TIMEOUT : Int := 30000
def DEFAULT_RETRIES : Nat := 3

/-- `EmailVerifyConfig`. Optional fields are `Option`; `timeout` is a
JS number (`Int`, `NaN` not modelled here), `retries` a non-negative
count. -/
structure EmailVerifyConfig where
  apiKey : String
  baseUrl : Option String
  timeout : Option Int
  retries : Option Nat
deriving Repr, DecidableEq

/-- The four private fields of a constructed `EmailVerify` instance. -/
structure EmailVerify where
  apiKey : String
  baseUrl : String
  timeout : Int
  retries : Nat
deriving Repr, DecidableEq

/-- `baseUrl.replace(/\/$/, '')`: the regex matches one `/` at the end
of the string, so exactly one trailing slash is removed. -/
def stripTrailingSlash (s : String) : String :=
  if s.data.getLast? = some '/' then String.mk s.data.dropLast else s

/-- The constructor of `EmailVerify`:
`if (!config.apiKey) throw new AuthenticationError('API key is required')`,
then `baseUrl?.replace(/\/$/, '') || DEFAULT_BASE_URL`,
`config.timeout || DEFAULT_TIMEOUT` (so a falsy `0` takes the default)
and `config.retries ?? DEFAULT_RETRIES` (so `0` is kept). -/
def mkEmailVerify (config : EmailVerifyConfig) : Except EVError EmailVerify :=
  if config.apiKey = "" then
    Except.error (mkAuthenticationError "API key is required")
  else
    Except.ok
      ⟨config.apiKey,
        jsOrStr (config.baseUrl.map stripTrailingSlash) DEFAULT_BASE_URL,
        jsOrNum config.timeout DEFAULT_TIMEOUT,
        config.retries.getD DEFAULT_RETRIES⟩

/-- `verifyBulk(emails, options)`: the local size check runs before any
network call; past it, the POST goes through the request pipeline. -/
def verifyBulk (cl : EmailVerify) (emails : List String)
    (server : Nat → Resp) : RunResult :=
  if emails.length > 10000 then
    ⟨Except.error
        (mkValidationError "Maximum 10,000 emails per bulk job" none), 0, []⟩
  else
    runRequest cl.retries server

/-! ## `getBulkJobResults` query construction -/

/-- `BulkResultsOptions`; `status` is kept as a raw string so that the
falsy empty string can be discussed. -/
structure BulkResultsOptions where
  limit : Option Int
  offset : Option Int
  status : Option String
deriving Repr, DecidableEq

/-- The `URLSearchParams` built by `getBulkJobResults`, in insertion
order: `if (options?.limit) set('limit', ...)`,
`if (options?.offset !== undefined) set('offset', ...)`,
`if (options?.status) set('status', ...)`. -/
def buildResultsParams (o : BulkResultsOptions) : List (String × String) :=
  (match o.limit with
    | some l => if l ≠ 0 then [("limit", toString l)] else []
    | none => []) ++
  (match o.offset with
    | some v => [("offset", toString v)]
    | none => []) ++
  (match o.status with
    | some s => if s ≠ "" then [("status", s)] else []
    | none => [])

/-- `params.toString()`: `k=v` pairs joined by `&` (URL-escaping is the
identity on the digit/letter values that can occur here). -/
def paramsToString (ps : List (String × String)) : String :=
  String.intercalate "&" (ps.map fun p => p.1 ++ "=" ++ p.2)

/-- The path of the GET issued by `getBulkJobResults`. -/
def buildResultsPath (jobId : String) (o : BulkResultsOptions) : String :=
  let query := paramsToString (buildResultsParams o)
  "/verify/bulk/" ++ jobId ++ "/results" ++
    (if query = "" then "" else "?" ++ query)

/-! ## `waitForBulkJobCompletion` -/

/-- `status.status === 'completed' || status.status === 'failed'`. -/
def isTerminalStatus (s : String) : Bool :=
  s == "completed" || s == "failed"

/-- Environment of the polling loop: `statuses k` is the job status
snapshot returned by the `k`-th `getBulkJobStatus` call (counted from
0, each call assumed to succeed), and `durs k` is the wall-clock time
in ms that this call itself takes. -/
structure PollEnv where
  statuses : Nat → String
  durs : Nat → Nat

/-- Result of the polling loop: the returned snapshot status or the
raised error, the number of polls made, and the sleeps performed. -/
structure WaitOutcome where
  outcome : Except EVError String
  polls : Nat
  sleeps : List Nat
deriving Repr, DecidableEq

/-- The `while (Date.now() - startTime < maxWait)` loop of
`waitForBulkJobCompletion`, with `elapsed = Date.now() - startTime` at
the loop head and `k` the index of the next poll. `fuel` bounds the
recursion depth only (the JS loop can run forever when
`pollInterval = 0` and the job never terminates); `none` means the
fuel ran out before the loop did. -/
def waitLoop (env : PollEnv) (pollInterval maxWait : Nat)
    (elapsed k : Nat) (fuel : Nat) : Option WaitOutcome :=
  if elapsed < maxWait then
    let st := env.statuses k
    if isTerminalStatus st then
      some ⟨Except.ok st, k + 1, []⟩
    else
      match fuel with
      | 0 => none
      | Nat.succ f =>
          match waitLoop env pollInterval maxWait
              (elapsed + env.durs k + pollInterval) (k + 1) f with
          | none => none
          | some o => some ⟨o.outcome, o.polls, pollInterval :: o.sleeps⟩
  else
    some ⟨Except.error
        (mkTimeoutError "Bulk job did not complete within maxWait ms"),
      k, []⟩

/-- `waitForBulkJobCompletion(jobId, pollInterval, maxWait)`:
`startTime = Date.now()` then the loop above, so `elapsed` starts at 0
with poll index 0. -/
def waitForBulkJobCompletion (env : PollEnv) (pollInterval maxWait : Nat)
    (fuel : Nat) : Option WaitOutcome :=
  waitLoop env pollInterval maxWait 0 0 fuel

/-- `Date.now() - startTime` observed at the head of iteration `k` of
the polling loop: each earlier iteration spent its poll duration plus
one `pollInterval` sleep. -/
def elapsedAt (env : PollEnv) (pollInterval : Nat) : Nat → Nat
  | 0 => 0
  | Nat.succ k => elapsedAt env pollInterval k + env.durs k + pollInterval

/-! ## SHA-256 and HMAC-SHA256

Modelled from the spec: `verifyWebhookSignature` calls the external
Node `crypto` module (`createHmac('sha256', secret)` and
`timingSafeEqual`), which is not part of this repository. The spec
describes the expected signature as
`"sha256=" + hex(HMAC-SHA256(secret, payload))`, so HMAC-SHA256 is
embedded here directly from FIPS 180-4 / RFC 2104, operating on byte
sequences (`List Nat`, each entry one byte). -/

/-- Truncate to a 32-bit word. -/
def w32 (x : Nat) : Nat := x % 4294967296

/-- Truncate to a byte. -/
def w8 (x : Nat) : Nat := x % 256

/-- 32-bit rotate right. -/
def rotr (n x : Nat) : Nat :=
  w32 ((x >>> n) ||| (x <<< (32 - n)))

def bsig0 (x : Nat) : Nat := rotr 2 x ^^^ rotr 13 x ^^^ rotr 22 x
def bsig1 (x : Nat) : Nat := rotr 6 x ^^^ rotr 11 x ^^^ rotr 25 x
def ssig0 (x : Nat) : Nat := rotr 7 x ^^^ rotr 18 x ^^^ (x >>> 3)
def ssig1 (x : Nat) : Nat := rotr 17 x ^^^ rotr 19 x ^^^ (x >>> 10)
def chf (x y z : Nat) : Nat := (x &&& y) ^^^ ((x ^^^ 4294967295) &&& z)
def majf (x y z : Nat) : Nat := (x &&& y) ^^^ (x &&& z) ^^^ (y &&& z)

/-- The 64 SHA-256 round constants (FIPS 180-4 section 4.2.2, the
fractional parts of the cube roots of the first 64 primes, written in
decimal). -/
def sha256K : List Nat :=
  [1116352408, 1899447441, 3049323471, 3921009573, 961987163,
   1508970993, 2453635748, 2870763221, 3624381080, 310598401,
   607225278, 1426881987, 1925078388, 2162078206, 2614888103,
   3248222580, 3835390401, 4022224774, 264347078, 604807628,
   770255983, 1249150122, 1555081692, 1996064986, 2554220882,
   2821834349, 2952996808, 3210313671, 3336571891, 3584528711,
   113926993, 338241895, 666307205, 773529912, 1294757372,
   1396182291, 1695183700, 1986661051, 2177026350, 2456956037,
   2730485921, 2820302411, 3259730800, 3345764771, 3516065817,
   3600352804, 4094571909, 275423344, 430227734, 506948616,
   659060556, 883997877, 958139571, 1322822218, 1537002063,
   1747873779, 1955562222, 2024104815, 2227730452, 2361852424,
   2428436474, 2756734187, 3204031479, 3329325298]

/-- The SHA-256 working state (a..h). -/
structure SHAState where
  a : Nat
  b : Nat
  c : Nat
  d : Nat
  e : Nat
  f : Nat
  g : Nat
  h : Nat
deriving Repr, DecidableEq

/-- SHA-256 initial hash value (FIPS 180-4 section 5.3.3, in
decimal). -/
def sha256Init : SHAState :=
  ⟨1779033703, 3144134277, 1013904242, 2773480762,
   1359893119, 2600822924, 528734635, 1541459225⟩

/-- Big-endian bytes of a 64-bit length. -/
def be64 (n : Nat) : List Nat :=
  [w8 (n >>> 56), w8 (n >>> 48), w8 (n >>> 40), w8 (n >>> 32),
   w8 (n >>> 24), w8 (n >>> 16), w8 (n >>> 8), w8 n]

/-- Big-endian bytes of a 32-bit word. -/
def be32 (n : Nat) : List Nat :=
  [w8 (n >>> 24), w8 (n >>> 16), w8 (n >>> 8), w8 n]

/-- SHA-256 padding: append `0x80`, zeros up to 56 mod 64, then the
message bit length as 64-bit big-endian. -/
def padMessage (msg : List Nat) : List Nat :=
  let len := msg.length
  let zeros := (119 - len % 64) % 64
  msg ++ 128 :: List.replicate zeros 0 ++ be64 (len * 8)

/-- Split a byte list into 64-byte blocks (structural recursion on a
fuel that the wrapper instantiates with the list length, which always
suffices because every step shortens the list). -/
def toBlocksAux : Nat → List Nat → List (List Nat)
  | _, [] => []
  | 0, _ => []
  | Nat.succ f, l => l.take 64 :: toBlocksAux f (l.drop 64)

/-- Split a byte list into 64-byte blocks. -/
def toBlocks (l : List Nat) : List (List Nat) :=
  toBlocksAux l.length l

/-- Parse a block into 16 big-endian 32-bit words. -/
def toWords : List Nat → List Nat
  | a :: b :: c :: d :: rest =>
      (((a * 256 + b) * 256 + c) * 256 + d) :: toWords rest
  | _ => []

/-- Extend the 16 block words by `n` message-schedule words; `acc`
holds the schedule so far, most recent word first. -/
def schedRev (acc : List Nat) : Nat → List Nat
  | 0 => acc
  | Nat.succ n =>
      let wn := w32 (ssig1 (acc.getD 1 0) + acc.getD 6 0 +
        ssig0 (acc.getD 14 0) + acc.getD 15 0)
      schedRev (wn :: acc) n

/-- The full 64-word message schedule of a block. -/
def schedule (block : List Nat) : List Nat :=
  (schedRev (toWords block).reverse 48).reverse

/-- One SHA-256 round. -/
def shaRound (s : SHAState) (k w : Nat) : SHAState :=
  let t1 := w32 (s.h + bsig1 s.e + chf s.e s.f s.g + k + w)
  let t2 := w32 (bsig0 s.a + majf s.a s.b s.c)
  ⟨w32 (t1 + t2), s.a, s.b, s.c, w32 (s.d + t1), s.e, s.f, s.g⟩

/-- Compress one 64-byte block into the running hash. -/
def compressBlock (hv : SHAState) (block : List Nat) : SHAState :=
  let ws := schedule block
  let s := (sha256K.zip ws).foldl (fun st p => shaRound st p.1 p.2) hv
  ⟨w32 (hv.a + s.a), w32 (hv.b + s.b), w32 (hv.c + s.c), w32 (hv.d + s.d),
   w32 (hv.e + s.e), w32 (hv.f + s.f), w32 (hv.g + s.g), w32 (hv.h + s.h)⟩

/-- SHA-256 of a byte sequence, as 32 bytes. -/
def sha256 (msg : List Nat) : List Nat :=
  let hv := (toBlocks (padMessage msg)).foldl compressBlock sha256Init
  be32 hv.a ++ be32 hv.b ++ be32 hv.c ++ be32 hv.d ++
  be32 hv.e ++ be32 hv.f ++ be32 hv.g ++ be32 hv.h

/-- HMAC-SHA256 (RFC 2104) with a 64-byte block size. -/
def hmacSha256 (key msg : List Nat) : List Nat :=
  let k0 := if key.length > 64 then sha256 key else key
  let kpad := k0 ++ List.replicate (64 - k0.length) 0
  let ipad := kpad.map (fun b => b ^^^ 54)
  let opad := kpad.map (fun b => b ^^^ 92)
  sha256 (opad ++ sha256 (ipad ++ msg))

/-- Lowercase hex digit, as an ASCII byte. -/
def hexDigitByte (n : Nat) : Nat :=
  if n < 10 then 48 + n else 87 + n

/-- Lowercase hex encoding of a byte sequence (`digest('hex')`), as
ASCII bytes. -/
def bytesToHexBytes (bs : List Nat) : List Nat :=
  bs.foldr (fun b acc => hexDigitByte (b / 16 % 16) :: hexDigitByte (b % 16) :: acc) []

/-- ASCII bytes of a Lean string (used for the pure-ASCII literals of
the source, where UTF-8 and code points coincide). -/
def asciiBytes (s : String) : List Nat :=
  s.data.map Char.toNat

/-! ## `verifyWebhookSignature` -/

/-- `crypto.timingSafeEqual(a, b)`: throws when the buffer lengths
differ, otherwise reports byte equality (computed branch-free, here as
an accumulated `xor`/`or`). -/
def timingSafeEqual (a b : List Nat) : Except String Bool :=
  if a.length ≠ b.length then
    Except.error "ERR_CRYPTO_TIMING_SAFE_EQUAL_LENGTH"
  else
    Except.ok (((a.zip b).map fun p => p.1 ^^^ p.2).foldl (fun x y => x ||| y) 0 == 0)

/-- The expected signature bytes:
`"sha256=" + hmac.digest('hex')` for HMAC-SHA256 keyed by the secret
over the payload. -/
def expectedSignatureBytes (payload secret : List Nat) : List Nat :=
  asciiBytes "sha256=" ++ bytesToHexBytes (hmacSha256 secret payload)

/-- `verifyWebhookSignature` with the buffer comparison abstracted, to
make "the length check decides without any content comparison"
statable: when the byte lengths differ, `false` is returned before
`cmp` is consulted. -/
def verifyWebhookSignatureWith (cmp : List Nat → List Nat → Except String Bool)
    (payload signature secret : List Nat) : Except String Bool :=
  let expected := expectedSignatureBytes payload secret
  if signature.length ≠ expected.length then
    Except.ok false
  else
    cmp signature expected

/-- `verifyWebhookSignature(payload, signature, secret)` over the byte
sequences of its three string arguments. -/
def verifyWebhookSignature (payload signature secret : List Nat) :
    Except String Bool :=
  verifyWebhookSignatureWith timingSafeEqual payload signature secret

/-! ## Branch lemmas for the request pipeline -/

/-- A response whose status maps to an immediate error without retry. -/
lemma requestFrom_status_401 (retries : Nat) (server : Nat → Resp)
    (attempt : Nat) (h : (server attempt).status = 401) :
    requestFrom retries server attempt =
      ⟨Except.error (mkAuthenticationError (respMessage (server attempt))),
        1, []⟩ := by
  rw [requestFrom.eq_def]
  simp only [h]
  norm_num [respOk]

lemma requestFrom_status_403 (retries : Nat) (server : Nat → Resp)
    (attempt : Nat) (h : (server attempt).status = 403) :
    requestFrom retries server attempt =
      (if respCode (server attempt) = "INSUFFICIENT_CREDITS" then
        ⟨Except.error
            (mkInsufficientCreditsError (respMessage (server attempt))), 1, []⟩
      else
        ⟨Except.error
            (mkEmailVerifyError (respMessage (server attempt))
              (respCode (server attempt)) 403 none), 1, []⟩) := by
  rw [requestFrom.eq_def]
  simp only [h]
  norm_num [respOk]

lemma requestFrom_status_404 (retries : Nat) (server : Nat → Resp)
    (attempt : Nat) (h : (server attempt).status = 404) :
    requestFrom retries server attempt =
      ⟨Except.error (mkNotFoundError (respMessage (server attempt))), 1, []⟩ := by
  rw [requestFrom.eq_def]
  simp only [h]
  norm_num [respOk]

lemma requestFrom_status_400 (retries : Nat) (server : Nat → Resp)
    (attempt : Nat) (h : (server attempt).status = 400) :
    requestFrom retries server attempt =
      ⟨Except.error
          (mkValidationError (respMessage (server attempt))
            ((server attempt).err.bind ApiErrorObj.details)), 1, []⟩ := by
  rw [requestFrom.eq_def]
  simp only [h]
  norm_num [respOk]

/-- 429 on the last permitted attempt: raise `RateLimitError`. -/
lemma requestFrom_status_429_last (retries : Nat) (server : Nat → Resp)
    (attempt : Nat) (h : (server attempt).status = 429)
    (hl : ¬ attempt < retries) :
    requestFrom retries server attempt =
      ⟨Except.error
          (mkRateLimitError (respMessage (server attempt))
            (jsParseInt (jsOrStr (server attempt).retryAfterHeader "0"))),
        1, []⟩ := by
  rw [requestFrom.eq_def]
  simp only [h]
  norm_num [respOk, hl]

/-- 429 with attempts left: sleep `(retryAfter || 2^attempt)` seconds,
re-issue, propagate an eventual failure, and turn an eventual success
into the `NETWORK_ERROR` double-body-read failure. -/
lemma requestFrom_status_429_retry (retries : Nat) (server : Nat → Resp)
    (attempt : Nat) (h : (server attempt).status = 429)
    (hl : attempt < retries) :
    requestFrom retries server attempt =
      ⟨(match (requestFrom retries server (attempt + 1)).outcome with
        | Except.error e => Except.error e
        | Except.ok _ => Except.error (mkNetworkError "Body is unusable")),
        (requestFrom retries server (attempt + 1)).calls + 1,
        jsOrNum (jsParseInt (jsOrStr (server attempt).retryAfterHeader "0"))
            ((2 : Int) ^ attempt) * 1000 ::
          (requestFrom retries server (attempt + 1)).sleeps⟩ := by
  rw [requestFrom.eq_def]
  simp only [h]
  norm_num [respOk, hl]
  rcases (requestFrom retries server (attempt + 1)).outcome with e | b <;> simp

/-- 500/502/503 on the last permitted attempt: raise the base error. -/
lemma requestFrom_status_5xx_last (retries : Nat) (server : Nat → Resp)
    (attempt : Nat)
    (h : (server attempt).status = 500 ∨ (server attempt).status = 502 ∨
      (server attempt).status = 503)
    (hl : ¬ attempt < retries) :
    requestFrom retries server attempt =
      ⟨Except.error
          (mkEmailVerifyError (respMessage (server attempt))
            (respCode (server attempt)) (server attempt).status none),
        1, []⟩ := by
  rw [requestFrom.eq_def]
  rcases h with h | h | h <;> simp only [h] <;> norm_num [respOk, hl]

/-- 500/502/503 with attempts left: sleep `2^attempt` seconds and
re-issue, with the same propagation as the 429 retry. -/
lemma requestFrom_status_5xx_retry (retries : Nat) (server : Nat → Resp)
    (attempt : Nat)
    (h : (server attempt).status = 500 ∨ (server attempt).status = 502 ∨
      (server attempt).status = 503)
    (hl : attempt < retries) :
    requestFrom retries server attempt =
      ⟨(match (requestFrom retries server (attempt + 1)).outcome with
        | Except.error e => Except.error e
        | Except.ok _ => Except.error (mkNetworkError "Body is unusable")),
        (requestFrom retries server (attempt + 1)).calls + 1,
        ((2 : Int) ^ attempt) * 1000 ::
          (requestFrom retries server (attempt + 1)).sleeps⟩ := by
  rw [requestFrom.eq_def]
  rcases h with h | h | h <;> simp only [h] <;> norm_num [respOk, hl] <;>
    rcases (requestFrom retries server (attempt + 1)).outcome with e | b <;> simp

/-- Unpack the Boolean retryable-status test. -/
lemma retryableStatus_cases {s : Nat} (h : retryableStatus s = true) :
    s = 429 ∨ s = 500 ∨ s = 502 ∨ s = 503 := by
  simp only [retryableStatus, Bool.or_eq_true, beq_iff_eq] at h
  tauto

/-- A success response: 204 yields the empty result, otherwise the
parsed body (or the generic network error on a JSON parse failure). -/
lemma requestFrom_ok (retries : Nat) (server : Nat → Resp) (attempt : Nat)
    (h : respOk (server attempt).status = true) :
    requestFrom retries server attempt =
      (if (server attempt).status = 204 then ⟨Except.ok none, 1, []⟩
      else
        match (server attempt).jsonBody with
        | some b => ⟨Except.ok (some b), 1, []⟩
        | none =>
            ⟨Except.error (mkNetworkError "Unexpected end of JSON input"),
              1, []⟩) := by
  rw [requestFrom.eq_def]
  simp [h]

/-- The `default:` arm of the status switch. -/
lemma requestFrom_default (retries : Nat) (server : Nat → Resp) (attempt : Nat)
    (hok : respOk (server attempt).status = false)
    (h401 : (server attempt).status ≠ 401)
    (h403 : (server attempt).status ≠ 403)
    (h404 : (server attempt).status ≠ 404)
    (h429 : (server attempt).status ≠ 429)
    (h400 : (server attempt).status ≠ 400)
    (h500 : (server attempt).status ≠ 500)
    (h502 : (server attempt).status ≠ 502)
    (h503 : (server attempt).status ≠ 503) :
    requestFrom retries server attempt =
      ⟨Except.error
          (mkEmailVerifyError (respMessage (server attempt))
            (respCode (server attempt)) (server attempt).status none),
        1, []⟩ := by
  rw [requestFrom.eq_def]
  simp [hok, h401, h403, h404, h429, h400, h500, h502, h503]

/-- Every entry into `request` performs its `fetch` before anything can
fail, so at least one HTTP call is always made. -/
lemma requestFrom_calls_pos (retries : Nat) (server : Nat → Resp)
    (attempt : Nat) : 1 ≤ (requestFrom retries server attempt).calls := by
  by_cases hok : respOk (server attempt).status = true
  · rw [requestFrom_ok retries server attempt hok]
    split
    · simp
    · rcases (server attempt).jsonBody with _ | b <;> simp
  · replace hok : respOk (server attempt).status = false := by
      simpa using hok
    by_cases h401 : (server attempt).status = 401
    · simp [requestFrom_status_401 retries server attempt h401]
    by_cases h403 : (server attempt).status = 403
    · rw [requestFrom_status_403 retries server attempt h403]
      split <;> simp
    by_cases h404 : (server attempt).status = 404
    · simp [requestFrom_status_404 retries server attempt h404]
    by_cases h400 : (server attempt).status = 400
    · simp [requestFrom_status_400 retries server attempt h400]
    by_cases h429 : (server attempt).status = 429
    · by_cases hl : attempt < retries
      · simp [requestFrom_status_429_retry retries server attempt h429 hl]
      · simp [requestFrom_status_429_last retries server attempt h429 hl]
    by_cases h5 : (server attempt).status = 500 ∨ (server attempt).status = 502 ∨
        (server attempt).status = 503
    · by_cases hl : attempt < retries
      · simp [requestFrom_status_5xx_retry retries server attempt h5 hl]
      · simp [requestFrom_status_5xx_last retries server attempt h5 hl]
    push_neg at h5
    simp [requestFrom_default retries server attempt hok h401 h403 h404 h429
      h400 h5.1 h5.2.1 h5.2.2]

/-- While every attempt keeps answering with a retryable status
(429/500/502/503), the pipeline keeps the `attempt < retries` loop
going: from attempt `attempt ≤ retries` it performs exactly
`retries - attempt + 1` HTTP calls, ends in an error, and sleeps once
per non-final attempt. -/
lemma requestFrom_retryable_exhaust (server : Nat → Resp) :
    ∀ (n attempt retries : Nat), retries - attempt = n →
    attempt ≤ retries →
    (∀ i, attempt ≤ i → i ≤ retries → retryableStatus (server i).status = true) →
    (requestFrom retries server attempt).calls = retries - attempt + 1 ∧
    (∃ e, (requestFrom retries server attempt).outcome = Except.error e) ∧
    (requestFrom retries server attempt).sleeps.length = retries - attempt := by
  intro n
  induction n with
  | zero =>
      intro attempt retries hn hle hsrv
      have hattempt : ¬ attempt < retries := by omega
      have hst := retryableStatus_cases (hsrv attempt le_rfl hle)
      rcases hst with h | h
      · rw [requestFrom_status_429_last retries server attempt h hattempt]
        simp [hn]
      · rw [requestFrom_status_5xx_last retries server attempt h hattempt]
        simp [hn]
  | succ m ih =>
      intro attempt retries hn hle hsrv
      have hattempt : attempt < retries := by omega
      have hsrv' : ∀ i, attempt + 1 ≤ i → i ≤ retries →
          retryableStatus (server i).status = true := by
        intro i h1 h2
        exact hsrv i (by omega) h2
      have hinner := ih (attempt + 1) retries (by omega) (by omega) hsrv'
      obtain ⟨hcalls, ⟨e, herr⟩, hsleeps⟩ := hinner
      have hst := retryableStatus_cases (hsrv attempt (by omega) (by omega))
      rcases hst with h | h
      · rw [requestFrom_status_429_retry retries server attempt h hattempt]
        refine ⟨by simp [hcalls]; omega, ⟨e, ?_⟩, by simp [hsleeps]; omega⟩
        simp [herr]
      · rw [requestFrom_status_5xx_retry retries server attempt h hattempt]
        refine ⟨by simp [hcalls]; omega, ⟨e, ?_⟩, by simp [hsleeps]; omega⟩
        simp [herr]

/-! ## Lemmas about the signature comparison -/

lemma nat_lor_eq_zero_iff (x y : Nat) : x ||| y = 0 ↔ x = 0 ∧ y = 0 := by
  constructor
  · intro h
    constructor <;>
      · apply Nat.eq_of_testBit_eq
        intro i
        have hb := congrArg (fun t => Nat.testBit t i) h
        simp only [Nat.testBit_or, Nat.zero_testBit, Bool.or_eq_false_iff] at hb
        simp [hb.1, hb.2]
  · rintro ⟨rfl, rfl⟩
    simp

lemma foldl_lor_eq_zero (l : List Nat) (i : Nat) :
    l.foldl (fun x y => x ||| y) i = 0 ↔ i = 0 ∧ ∀ x ∈ l, x = 0 := by
  induction l generalizing i with
  | nil => simp
  | cons z zs ih =>
      simp only [List.foldl_cons, ih, nat_lor_eq_zero_iff, List.mem_cons]
      constructor
      · rintro ⟨⟨hi, hz⟩, hall⟩
        exact ⟨hi, fun x hx => by rcases hx with rfl | hx; exact hz; exact hall x hx⟩
      · rintro ⟨hi, hall⟩
        exact ⟨⟨hi, hall z (Or.inl rfl)⟩, fun x hx => hall x (Or.inr hx)⟩

lemma zip_xor_zero_iff (a : List Nat) :
    ∀ b : List Nat, a.length = b.length →
      ((∀ p ∈ a.zip b, p.1 ^^^ p.2 = 0) ↔ a = b) := by
  induction a with
  | nil =>
      intro b hb
      cases b with
      | nil => simp
      | cons y ys => simp at hb
  | cons x xs ih =>
      intro b hb
      cases b with
      | nil => simp at hb
      | cons y ys =>
          simp only [List.zip_cons_cons, List.mem_cons, List.cons.injEq]
          have hlen : xs.length = ys.length := by
            simpa using hb
          constructor
          · intro h
            have hx : x ^^^ y = 0 := h (x, y) (Or.inl rfl)
            refine ⟨Nat.xor_eq_zero.mp hx, (ih ys hlen).mp ?_⟩
            intro p hp
            exact h p (Or.inr hp)
          · rintro ⟨rfl, h⟩
            subst h
            intro p hp
            rcases hp with rfl | hp
            · simp
            · exact (ih xs rfl).mpr rfl p hp

/-- Under the length precondition that `verifyWebhookSignature`
establishes, `timingSafeEqual` is plain byte-sequence equality. -/
lemma timingSafeEqual_ok (a b : List Nat) (h : a.length = b.length) :
    timingSafeEqual a b = Except.ok (decide (a = b)) := by
  unfold timingSafeEqual
  rw [if_neg (by omega)]
  congr 1
  have hzip := zip_xor_zero_iff a b h
  have hfold := foldl_lor_eq_zero ((a.zip b).map fun p => p.1 ^^^ p.2) 0
  rw [Bool.eq_iff_iff]
  simp only [beq_iff_eq, decide_eq_true_eq]
  rw [hfold]
  constructor
  · rintro ⟨-, hall⟩
    apply hzip.mp
    intro p hp
    exact hall _ (List.mem_map_of_mem _ hp)
  · intro heq
    refine ⟨rfl, ?_⟩
    intro x hx
    obtain ⟨p, hp, rfl⟩ := List.mem_map.mp hx
    exact hzip.mpr heq p hp

/-- `sha256` always produces 32 bytes. -/
lemma sha256_length (msg : List Nat) : (sha256 msg).length = 32 := by
  simp [sha256, be32]

/-- The expected signature is always the 7 ASCII bytes of `sha256=`
followed by 64 hex digits. -/
lemma expectedSignatureBytes_length (payload secret : List Nat) :
    (expectedSignatureBytes payload secret).length = 71 := by
  have hh : ∀ bs : List Nat, (bytesToHexBytes bs).length = 2 * bs.length := by
    intro bs
    induction bs with
    | nil => simp [bytesToHexBytes]
    | cons b tl ih => simp [bytesToHexBytes] at ih ⊢; omega
  simp [expectedSignatureBytes, asciiBytes, hh, hmacSha256, sha256_length]

/-! ## Lemmas about the polling loop -/

/-- Characterization of a finished polling loop started at poll index
`k` (elapsed time `elapsedAt env pollInterval k`): a success outcome is
the first terminal snapshot at or after `k`, observed before `maxWait`
elapsed; an error outcome is the Timeout error, raised only when every
poll made was non-terminal and the deadline had passed; sleeps are one
`pollInterval` per non-final completed iteration. -/
lemma waitLoop_sound (env : PollEnv) (pollInterval maxWait : Nat) :
    ∀ (fuel k : Nat) (o : WaitOutcome),
    waitLoop env pollInterval maxWait (elapsedAt env pollInterval k) k fuel =
      some o →
    ((∀ st, o.outcome = Except.ok st →
        k < o.polls ∧
        st = env.statuses (o.polls - 1) ∧
        isTerminalStatus st = true ∧
        (∀ j, k ≤ j → j + 1 < o.polls →
          isTerminalStatus (env.statuses j) = false) ∧
        elapsedAt env pollInterval (o.polls - 1) < maxWait ∧
        o.sleeps = List.replicate (o.polls - 1 - k) pollInterval) ∧
    (∀ e, o.outcome = Except.error e →
        e = mkTimeoutError "Bulk job did not complete within maxWait ms" ∧
        k ≤ o.polls ∧
        (∀ j, k ≤ j → j < o.polls →
          isTerminalStatus (env.statuses j) = false) ∧
        maxWait ≤ elapsedAt env pollInterval o.polls ∧
        o.sleeps = List.replicate (o.polls - k) pollInterval)) := by
  intro fuel
  induction fuel with
  | zero =>
      intro k o h
      rw [waitLoop] at h
      by_cases hel : elapsedAt env pollInterval k < maxWait
      · rw [if_pos hel] at h
        by_cases hterm : isTerminalStatus (env.statuses k) = true
        · rw [if_pos hterm] at h
          obtain rfl : (⟨Except.ok (env.statuses k), k + 1, []⟩ : WaitOutcome) = o := by
            simpa using h
          constructor
          · intro st hst
            obtain rfl : env.statuses k = st := by simpa using hst
            refine ⟨by simp, by simp, hterm, ?_, by simpa using hel, by simp⟩
            intro j h1 h2
            simp at h2
            omega
          · intro e he
            simp at he
        · rw [if_neg hterm] at h
          simp at h
      · rw [if_neg hel] at h
        obtain rfl :
            (⟨Except.error
                (mkTimeoutError "Bulk job did not complete within maxWait ms"),
              k, []⟩ : WaitOutcome) = o := by
          simpa using h
        constructor
        · intro st hst
          simp at hst
        · intro e he
          obtain rfl :
              mkTimeoutError "Bulk job did not complete within maxWait ms" = e := by
            simpa using he
          refine ⟨rfl, le_rfl, ?_, by simp; omega, by simp⟩
          intro j h1 h2
          simp at h2
          omega
  | succ f ih =>
      intro k o h
      rw [waitLoop] at h
      by_cases hel : elapsedAt env pollInterval k < maxWait
      · rw [if_pos hel] at h
        by_cases hterm : isTerminalStatus (env.statuses k) = true
        · rw [if_pos hterm] at h
          obtain rfl : (⟨Except.ok (env.statuses k), k + 1, []⟩ : WaitOutcome) = o := by
            simpa using h
          constructor
          · intro st hst
            obtain rfl : env.statuses k = st := by simpa using hst
            refine ⟨by simp, by simp, hterm, ?_, by simpa using hel, by simp⟩
            intro j h1 h2
            simp at h2
            omega
          · intro e he
            simp at he
        · rw [if_neg hterm] at h
          have harg :
              elapsedAt env pollInterval k + env.durs k + pollInterval =
                elapsedAt env pollInterval (k + 1) := by
            simp [elapsedAt]
          rw [harg] at h
          rcases hrec : waitLoop env pollInterval maxWait
              (elapsedAt env pollInterval (k + 1)) (k + 1) f with _ | o'
          · rw [hrec] at h
            simp at h
          · rw [hrec] at h
            obtain rfl : (⟨o'.outcome, o'.polls, pollInterval :: o'.sleeps⟩ :
                WaitOutcome) = o := by
              simpa using h
            have hih := ih (k + 1) o' hrec
            constructor
            · intro st hst
              obtain ⟨h1, h2, h3, h4, h5, h6⟩ := hih.1 st hst
              refine ⟨by simp; omega, h2, h3, ?_, h5, ?_⟩
              · intro j hj1 hj2
                rcases Nat.eq_or_lt_of_le hj1 with rfl | hj1'
                · simpa using hterm
                · exact h4 j hj1' hj2
              · simp only [h6]
                have : o'.polls - 1 - k = (o'.polls - 1 - (k + 1)) + 1 := by
                  omega
                rw [this, List.replicate_succ]
            · intro e he
              obtain ⟨h1, h2, h3, h4, h5⟩ := hih.2 e he
              refine ⟨h1, by simp; omega, ?_, h4, ?_⟩
              · intro j hj1 hj2
                rcases Nat.eq_or_lt_of_le hj1 with rfl | hj1'
                · simpa using hterm
                · exact h3 j hj1' hj2
              · simp only [h5]
                have : o'.polls - k = (o'.polls - (k + 1)) + 1 := by
                  omega
                rw [this, List.replicate_succ]
      · rw [if_neg hel] at h
        obtain rfl :
            (⟨Except.error
                (mkTimeoutError "Bulk job did not complete within maxWait ms"),
              k, []⟩ : WaitOutcome) = o := by
          simpa using h
        constructor
        · intro st hst
          simp at hst
        · intro e he
          obtain rfl :
              mkTimeoutError "Bulk job did not complete within maxWait ms" = e := by
            simpa using he
          refine ⟨rfl, le_rfl, ?_, by simp; omega, by simp⟩
          intro j h1 h2
          simp at h2
          omega

/-- With a positive poll interval the loop always finishes within
`maxWait / pollInterval + 1`-ish iterations; `fuel * pollInterval ≥
maxWait` is enough fuel. -/
lemma waitLoop_isSome (env : PollEnv) (pollInterval maxWait : Nat) :
    ∀ (fuel elapsed k : Nat), maxWait ≤ elapsed + fuel * pollInterval →
    (waitLoop env pollInterval maxWait elapsed k fuel).isSome = true := by
  intro fuel
  induction fuel with
  | zero =>
      intro elapsed k hfuel
      rw [waitLoop]
      have : ¬ elapsed < maxWait := by omega
      rw [if_neg this]
      simp
  | succ f ih =>
      intro elapsed k hfuel
      rw [waitLoop]
      by_cases hel : elapsed < maxWait
      · rw [if_pos hel]
        by_cases hterm : isTerminalStatus (env.statuses k) = true
        · rw [if_pos hterm]
          simp
        · rw [if_neg hterm]
          have hrec := ih (elapsed + env.durs k + pollInterval) (k + 1)
            (by have := hfuel; rw [Nat.succ_mul] at this; omega)
          rcases hx : waitLoop env pollInterval maxWait
              (elapsed + env.durs k + pollInterval) (k + 1) f with _ | o
          · rw [hx] at hrec
            simp at hrec
          · simp
      · rw [if_neg hel]
        simp

/-! ## Witness fixtures: concrete responses and environments -/

def resp429Ex (hdr : Option String) : Resp :=
  ⟨429, "Too Many Requests", hdr, none, none⟩

def resp500Ex : Resp :=
  ⟨500, "Internal Server Error", none, none, none⟩

def resp200Ex : Resp :=
  ⟨200, "OK", none, none, some "payload"⟩

def resp401Ex : Resp :=
  ⟨401, "Unauthorized", none,
    some ⟨"INVALID_API_KEY", "Invalid API key", none⟩, none⟩

def resp403CreditsEx : Resp :=
  ⟨403, "Forbidden", none,
    some ⟨"INSUFFICIENT_CREDITS", "Not enough credits", none⟩, none⟩

def resp400Ex : Resp :=
  ⟨400, "Bad Request", none,
    some ⟨"INVALID_EMAIL", "Invalid email format", some "bad syntax"⟩, none⟩

/-- A server that answers 429 with an unparseable `Retry-After`. -/
def srv429abc : Nat → Resp :=
  fun _ => ⟨429, "Too Many Requests", some "abc", none, none⟩

/-- A server that rate-limits the first call and succeeds on the
second. -/
def srv429then200 : Nat → Resp :=
  fun i => if i = 1 then ⟨429, "Too Many Requests", some "1", none, none⟩
    else resp200Ex

/-- A polling environment: instantaneous polls, terminal on poll 2. -/
def pollEnvEx : PollEnv :=
  ⟨fun k => if k < 2 then "processing" else "completed", fun _ => 0⟩

/-! ## The claims -/

/-- C1: for every retryable HTTP status (429, 500, 502, 503) persisting
across attempts and every configured `retries = N` with `N ≥ 1`, the
request pipeline makes exactly `N` HTTP calls before raising the final
error; with `retries = 1` exactly one call is made, no retry occurs and
no backoff sleep happens. -/
theorem claim_C1_retry_attempt_budget (N : Nat) (server : Nat → Resp)
    (hN : 1 ≤ N)
    (hsrv : ∀ i, 1 ≤ i → i ≤ N → retryableStatus (server i).status = true) :
    (runRequest N server).calls = N ∧
    (∃ e, (runRequest N server).outcome = Except.error e) ∧
    (N = 1 → (runRequest N server).calls = 1 ∧
      (runRequest N server).sleeps = []) := by
  obtain ⟨hc, he, hs⟩ :=
    requestFrom_retryable_exhaust server (N - 1) 1 N (by omega) (by omega) hsrv
  simp only [runRequest] at he ⊢
  refine ⟨by omega, he, ?_⟩
  rintro rfl
  refine ⟨by omega, ?_⟩
  have hz : (requestFrom 1 server 1).sleeps.length = 0 := by omega
  exact List.length_eq_zero.mp hz

theorem claim_C1_witness :
    (runRequest 1 (fun _ => resp429Ex (some "7"))).calls = 1 ∧
    (∃ e, (runRequest 1 (fun _ => resp429Ex (some "7"))).outcome =
      Except.error e) ∧
    (1 = 1 → (runRequest 1 (fun _ => resp429Ex (some "7"))).calls = 1 ∧
      (runRequest 1 (fun _ => resp429Ex (some "7"))).sleeps = []) :=
  claim_C1_retry_attempt_budget 1 (fun _ => resp429Ex (some "7"))
    (by decide)
    (by
      intro i h1 h2
      show retryableStatus (resp429Ex (some "7")).status = true
      decide)

/-- The value of `verifyWebhookSignature` is always the boolean decision
of byte-for-byte equality with the expected signature; the length check
plus `timingSafeEqual` can never throw. Shared backbone of the webhook
signature claims. -/
lemma verifyWebhookSignature_eq_decide (payload signature secret : List Nat) :
    verifyWebhookSignature payload signature secret =
      Except.ok (decide (signature = expectedSignatureBytes payload secret)) := by
  unfold verifyWebhookSignature verifyWebhookSignatureWith
  by_cases h :
      signature.length ≠ (expectedSignatureBytes payload secret).length
  · rw [if_pos h]
    have hne : signature ≠ expectedSignatureBytes payload secret := by
      intro he
      exact h (by rw [he])
    rw [decide_eq_false hne]
  · rw [if_neg h]
    push_neg at h
    exact timingSafeEqual_ok _ _ h

/-- C2: `verifyWebhookSignature(payload, signature, secret)` returns
`true` iff the signature equals `"sha256=" ++` the lowercase hex of
HMAC-SHA256 keyed by the secret over the payload; it always returns a
boolean (`Except.ok`, never a thrown error). -/
theorem claim_C2_signature_iff (payload signature secret : List Nat) :
    verifyWebhookSignature payload signature secret =
      Except.ok (decide (signature =
        asciiBytes "sha256=" ++ bytesToHexBytes (hmacSha256 secret payload))) :=
  verifyWebhookSignature_eq_decide payload signature secret

/-- C3: `verifyWebhookSignature` is deterministic; any signature
differing from the expected one yields `false`; and a signature whose
byte length differs from the expected length yields `false` through the
length check alone, whatever content comparison would be used. -/
theorem claim_C3_signature_determinism (payload signature secret : List Nat) :
    (verifyWebhookSignature payload signature secret =
      verifyWebhookSignature payload signature secret) ∧
    (signature ≠ expectedSignatureBytes payload secret →
      verifyWebhookSignature payload signature secret = Except.ok false) ∧
    (signature.length ≠ (expectedSignatureBytes payload secret).length →
      ∀ cmp, verifyWebhookSignatureWith cmp payload signature secret =
        Except.ok false) := by
  refine ⟨rfl, ?_, ?_⟩
  · intro hne
    rw [verifyWebhookSignature_eq_decide, decide_eq_false hne]
  · intro hlen cmp
    unfold verifyWebhookSignatureWith
    rw [if_pos hlen]

set_option maxRecDepth 100000 in
theorem claim_C3_witness :
    (verifyWebhookSignature [97] [48, 49] [98] =
      verifyWebhookSignature [97] [48, 49] [98]) ∧
    verifyWebhookSignature [97] [48, 49] [98] = Except.ok false ∧
    verifyWebhookSignatureWith timingSafeEqual [97] [48, 49] [98] =
      Except.ok false :=
  ⟨(claim_C3_signature_determinism [97] [48, 49] [98]).1,
   (claim_C3_signature_determinism [97] [48, 49] [98]).2.1 (by decide),
   (claim_C3_signature_determinism [97] [48, 49] [98]).2.2 (by decide)
     timingSafeEqual⟩

/-- C4 as written is false on two counts, witnessed at concrete inputs.
(1) With `Retry-After: abc` (present but unparseable) and no attempts
left, the raised `RateLimitError` carries `retryAfter = NaN`
(modelled `none`), not the claimed default 0. (2) With
`retries = 2` and a server whose retried second call succeeds, the
pipeline does not return that call's result: it raises the generic
`NETWORK_ERROR` failure caused by re-reading the already-consumed
original response body. -/
theorem claim_C4_counterexample :
    ((runRequest 1 srv429abc).outcome =
        Except.error (mkRateLimitError "Too Many Requests" none) ∧
      mkRateLimitError "Too Many Requests" none ≠
        mkRateLimitError "Too Many Requests" (some 0)) ∧
    ((runRequest 2 srv429then200).outcome =
        Except.error (mkNetworkError "Body is unusable") ∧
      ∀ b : Option String,
        (runRequest 2 srv429then200).outcome ≠ Except.ok b) := by
  have h1 : requestFrom 1 srv429abc 1 =
      ⟨Except.error (mkRateLimitError "Too Many Requests" none), 1, []⟩ := by
    rw [requestFrom_status_429_last 1 srv429abc 1 rfl (by omega)]
    decide
  have hi : requestFrom 2 srv429then200 2 =
      ⟨Except.ok (some "payload"), 1, []⟩ := by
    rw [requestFrom_ok 2 srv429then200 2 (by decide)]
    decide
  have h2 := requestFrom_status_429_retry 2 srv429then200 1 (by decide) (by omega)
  rw [hi] at h2
  refine ⟨⟨?_, by decide⟩, ?_, ?_⟩
  · simp only [runRequest, h1]
  · simp only [runRequest, h2]
  · intro b
    simp only [runRequest, h2]
    simp

/-- C4 (amended): on a 429 response the pipeline reads `Retry-After`
with JavaScript `parseInt` semantics — 0 when the header is missing (or
empty), `NaN` (modelled `none`) when present but unparseable. If
`attempt < retries` it sleeps `(retryAfter || 2^attempt)` seconds and
re-issues the same call with `attempt + 1`; the re-issued call's
eventual failure is propagated unchanged, but its eventual success is
discarded and a `NETWORK_ERROR` error is raised instead (the original
response body is read a second time). Otherwise it raises a RateLimit
error whose `retryAfter` field is exactly the parsed value, `NaN`
included. -/
theorem claim_C4_rate_limit_handling (retries : Nat) (server : Nat → Resp)
    (attempt : Nat) (h429 : (server attempt).status = 429) :
    ((server attempt).retryAfterHeader = none →
      jsParseInt (jsOrStr (server attempt).retryAfterHeader "0") = some 0) ∧
    (¬ attempt < retries →
      requestFrom retries server attempt =
        ⟨Except.error
            (mkRateLimitError (respMessage (server attempt))
              (jsParseInt (jsOrStr (server attempt).retryAfterHeader "0"))),
          1, []⟩) ∧
    (attempt < retries →
      (requestFrom retries server attempt).calls =
        (requestFrom retries server (attempt + 1)).calls + 1 ∧
      (requestFrom retries server attempt).sleeps =
        jsOrNum (jsParseInt (jsOrStr (server attempt).retryAfterHeader "0"))
            ((2 : Int) ^ attempt) * 1000 ::
          (requestFrom retries server (attempt + 1)).sleeps ∧
      (∀ e, (requestFrom retries server (attempt + 1)).outcome =
          Except.error e →
        (requestFrom retries server attempt).outcome = Except.error e) ∧
      (∀ b, (requestFrom retries server (attempt + 1)).outcome =
          Except.ok b →
        (requestFrom retries server attempt).outcome =
          Except.error (mkNetworkError "Body is unusable"))) := by
  refine ⟨?_, ?_, ?_⟩
  · intro hnone
    rw [hnone]
    decide
  · intro hl
    exact requestFrom_status_429_last retries server attempt h429 hl
  · intro hl
    rw [requestFrom_status_429_retry retries server attempt h429 hl]
    refine ⟨rfl, rfl, ?_, ?_⟩
    · intro e he
      simp only [he]
    · intro b hb
      simp only [hb]

theorem claim_C4_witness :
    ((srv429then200 1).retryAfterHeader = none →
      jsParseInt (jsOrStr (srv429then200 1).retryAfterHeader "0") = some 0) ∧
    (runRequest 2 srv429then200).calls =
      (requestFrom 2 srv429then200 2).calls + 1 ∧
    (runRequest 2 srv429then200).outcome =
      Except.error (mkNetworkError "Body is unusable") := by
  have h := claim_C4_rate_limit_handling 2 srv429then200 1 (by decide)
  have hi : requestFrom 2 srv429then200 2 =
      ⟨Except.ok (some "payload"), 1, []⟩ := by
    rw [requestFrom_ok 2 srv429then200 2 (by decide)]
    decide
  obtain ⟨hc, hs, herr, hok⟩ := h.2.2 (by omega)
  exact ⟨h.1, hc, hok (some "payload") (by rw [hi])⟩

/-- C5: for a first response with status 401, 403, 404 or 400, exactly
one HTTP call is made (no retry, no sleep) and the raised error kind is
determined by the status: 401 Authentication; 403 InsufficientCredits
when the parsed server code is INSUFFICIENT_CREDITS and otherwise the
base taxonomy error with the server code, message and status 403; 404
NotFound; 400 Validation with the server message and details. -/
theorem claim_C5_immediate_errors (retries : Nat) (server : Nat → Resp) :
    ((server 1).status = 401 →
      runRequest retries server =
        ⟨Except.error (mkAuthenticationError (respMessage (server 1))),
          1, []⟩) ∧
    ((server 1).status = 403 → respCode (server 1) = "INSUFFICIENT_CREDITS" →
      runRequest retries server =
        ⟨Except.error (mkInsufficientCreditsError (respMessage (server 1))),
          1, []⟩) ∧
    ((server 1).status = 403 → respCode (server 1) ≠ "INSUFFICIENT_CREDITS" →
      runRequest retries server =
        ⟨Except.error
            (mkEmailVerifyError (respMessage (server 1)) (respCode (server 1))
              403 none), 1, []⟩) ∧
    ((server 1).status = 404 →
      runRequest retries server =
        ⟨Except.error (mkNotFoundError (respMessage (server 1))), 1, []⟩) ∧
    ((server 1).status = 400 →
      runRequest retries server =
        ⟨Except.error
            (mkValidationError (respMessage (server 1))
              ((server 1).err.bind ApiErrorObj.details)), 1, []⟩) := by
  refine ⟨?_, ?_, ?_, ?_, ?_⟩
  · intro h
    simp only [runRequest]
    exact requestFrom_status_401 retries server 1 h
  · intro h hc
    simp only [runRequest]
    rw [requestFrom_status_403 retries server 1 h, if_pos hc]
  · intro h hc
    simp only [runRequest]
    rw [requestFrom_status_403 retries server 1 h, if_neg hc]
  · intro h
    simp only [runRequest]
    exact requestFrom_status_404 retries server 1 h
  · intro h
    simp only [runRequest]
    exact requestFrom_status_400 retries server 1 h

theorem claim_C5_witness :
    runRequest 3 (fun _ => resp401Ex) =
      ⟨Except.error (mkAuthenticationError (respMessage resp401Ex)), 1, []⟩ ∧
    runRequest 3 (fun _ => resp403CreditsEx) =
      ⟨Except.error
          (mkInsufficientCreditsError (respMessage resp403CreditsEx)),
        1, []⟩ ∧
    runRequest 3 (fun _ => resp400Ex) =
      ⟨Except.error
          (mkValidationError (respMessage resp400Ex)
            (resp400Ex.err.bind ApiErrorObj.details)), 1, []⟩ :=
  ⟨(claim_C5_immediate_errors 3 (fun _ => resp401Ex)).1 (by decide),
   (claim_C5_immediate_errors 3 (fun _ => resp403CreditsEx)).2.1
     (by decide) (by decide),
   (claim_C5_immediate_errors 3 (fun _ => resp400Ex)).2.2.2.2 (by decide)⟩

/-- C6: `verifyBulk` raises a Validation error before issuing any HTTP
request (zero network calls) iff the list exceeds 10000 emails; at
10000 or fewer it proceeds to the request pipeline, which always makes
at least one HTTP call. -/
theorem claim_C6_bulk_size_limit (cl : EmailVerify) (emails : List String)
    (server : Nat → Resp) :
    (emails.length > 10000 →
      verifyBulk cl emails server =
        ⟨Except.error
            (mkValidationError "Maximum 10,000 emails per bulk job" none),
          0, []⟩) ∧
    (emails.length ≤ 10000 →
      verifyBulk cl emails server = runRequest cl.retries server ∧
      1 ≤ (verifyBulk cl emails server).calls) := by
  constructor
  · intro h
    unfold verifyBulk
    rw [if_pos h]
  · intro h
    have hn : ¬ emails.length > 10000 := by omega
    have he : verifyBulk cl emails server = runRequest cl.retries server := by
      unfold verifyBulk
      rw [if_neg hn]
    refine ⟨he, ?_⟩
    rw [he]
    exact requestFrom_calls_pos cl.retries server 1

theorem claim_C6_witness :
    verifyBulk ⟨"key", DEFAULT_BASE_URL, 30000, 3⟩
        (List.replicate 10001 "a@b.co") (fun _ => resp200Ex) =
      ⟨Except.error
          (mkValidationError "Maximum 10,000 emails per bulk job" none),
        0, []⟩ ∧
    verifyBulk ⟨"key", DEFAULT_BASE_URL, 30000, 3⟩
        (List.replicate 10000 "a@b.co") (fun _ => resp200Ex) =
      runRequest 3 (fun _ => resp200Ex) ∧
    1 ≤ (verifyBulk ⟨"key", DEFAULT_BASE_URL, 30000, 3⟩
        (List.replicate 10000 "a@b.co") (fun _ => resp200Ex)).calls :=
  ⟨(claim_C6_bulk_size_limit ⟨"key", DEFAULT_BASE_URL, 30000, 3⟩
      (List.replicate 10001 "a@b.co") (fun _ => resp200Ex)).1
      (by rw [List.length_replicate]; omega),
   (claim_C6_bulk_size_limit ⟨"key", DEFAULT_BASE_URL, 30000, 3⟩
      (List.replicate 10000 "a@b.co") (fun _ => resp200Ex)).2
      (by rw [List.length_replicate])⟩

/-- C7: `waitForBulkJobCompletion` returns the polled snapshot as soon
as a poll observes status `completed` or `failed`, polling no further
(every earlier poll was non-terminal) and having observed it before
`maxWait` elapsed; it sleeps `pollInterval` between polls (one sleep
per non-final completed iteration); and when no poll observes a
terminal status before `maxWait` has elapsed since the recorded start
it raises a Timeout-kind error. Enough fuel
(`maxWait ≤ fuel * pollInterval`) guarantees the loop finishes. -/
theorem claim_C7_wait_for_completion (env : PollEnv)
    (pollInterval maxWait fuel : Nat) :
    (maxWait ≤ fuel * pollInterval →
      (waitForBulkJobCompletion env pollInterval maxWait fuel).isSome = true) ∧
    (∀ o, waitForBulkJobCompletion env pollInterval maxWait fuel = some o →
      (∀ st, o.outcome = Except.ok st →
        1 ≤ o.polls ∧
        st = env.statuses (o.polls - 1) ∧
        isTerminalStatus st = true ∧
        (∀ j, j + 1 < o.polls → isTerminalStatus (env.statuses j) = false) ∧
        elapsedAt env pollInterval (o.polls - 1) < maxWait ∧
        o.sleeps = List.replicate (o.polls - 1) pollInterval) ∧
      (∀ e, o.outcome = Except.error e →
        e.kind = ErrKind.timedOut ∧
        (∀ j, j < o.polls → isTerminalStatus (env.statuses j) = false) ∧
        maxWait ≤ elapsedAt env pollInterval o.polls ∧
        o.sleeps = List.replicate o.polls pollInterval)) := by
  constructor
  · intro hfuel
    exact waitLoop_isSome env pollInterval maxWait fuel 0 0 (by omega)
  · intro o h
    have hs := waitLoop_sound env pollInterval maxWait fuel 0 o h
    constructor
    · intro st hst
      obtain ⟨h1, h2, h3, h4, h5, h6⟩ := hs.1 st hst
      refine ⟨by omega, h2, h3, ?_, h5, ?_⟩
      · intro j hj
        exact h4 j (Nat.zero_le j) hj
      · simpa using h6
    · intro e he
      obtain ⟨h1, h2, h3, h4, h5⟩ := hs.2 e he
      refine ⟨by rw [h1]; rfl, ?_, h4, ?_⟩
      · intro j hj
        exact h3 j (Nat.zero_le j) hj
      · simpa using h5

theorem claim_C7_witness :
    (waitForBulkJobCompletion pollEnvEx 5000 600000 120).isSome = true ∧
    (1 ≤ (3 : Nat) ∧
      "completed" = pollEnvEx.statuses (3 - 1) ∧
      isTerminalStatus "completed" = true ∧
      (∀ j, j + 1 < 3 → isTerminalStatus (pollEnvEx.statuses j) = false) ∧
      elapsedAt pollEnvEx 5000 (3 - 1) < 600000 ∧
      ([5000, 5000] : List Nat) = List.replicate (3 - 1) 5000) := by
  have hrun : waitForBulkJobCompletion pollEnvEx 5000 600000 120 =
      some ⟨Except.ok "completed", 3, [5000, 5000]⟩ := by
    decide
  exact ⟨(claim_C7_wait_for_completion pollEnvEx 5000 600000 120).1 (by omega),
    ((claim_C7_wait_for_completion pollEnvEx 5000 600000 120).2
      ⟨Except.ok "completed", 3, [5000, 5000]⟩ hrun).1 "completed" rfl⟩

/-- C8: construction fails with an Authentication-kind error exactly
when the API key is the empty string, and succeeds for every non-empty
key; on success the base URL is normalized by stripping exactly one
trailing slash (with the known endpoint as default), the timeout
defaults to 30000 ms and retries defaults to 3 when not supplied. -/
theorem claim_C8_constructor_contract (config : EmailVerifyConfig) :
    (config.apiKey = "" →
      mkEmailVerify config =
        Except.error (mkAuthenticationError "API key is required") ∧
      (mkAuthenticationError "API key is required").kind =
        ErrKind.authentication) ∧
    (config.apiKey ≠ "" →
      ∃ cl, mkEmailVerify config = Except.ok cl ∧
        cl.apiKey = config.apiKey ∧
        (config.baseUrl = none → cl.baseUrl = DEFAULT_BASE_URL) ∧
        (∀ u, config.baseUrl = some (u ++ "/") → u ≠ "" → cl.baseUrl = u) ∧
        (∀ u, config.baseUrl = some u → u.data.getLast? ≠ some '/' →
          u ≠ "" → cl.baseUrl = u) ∧
        (config.timeout = none → cl.timeout = 30000) ∧
        (config.retries = none → cl.retries = 3)) := by
  constructor
  · intro h
    unfold mkEmailVerify
    rw [if_pos h]
    exact ⟨rfl, rfl⟩
  · intro h
    refine ⟨⟨config.apiKey,
      jsOrStr (config.baseUrl.map stripTrailingSlash) DEFAULT_BASE_URL,
      jsOrNum config.timeout DEFAULT_TIMEOUT,
      config.retries.getD DEFAULT_RETRIES⟩, ?_, rfl, ?_, ?_, ?_, ?_, ?_⟩
    · unfold mkEmailVerify
      rw [if_neg h]
    · intro hb
      rw [hb]
      rfl
    · intro u hb hu
      rw [hb]
      have hstrip : stripTrailingSlash (u ++ "/") = u := by
        unfold stripTrailingSlash
        have hdata : (u ++ "/").data = u.data ++ ['/'] := by
          cases u with
          | mk l => rfl
        rw [hdata, if_pos (List.getLast?_concat u.data)]
        rw [List.dropLast_concat]
      show jsOrStr (some (stripTrailingSlash (u ++ "/"))) DEFAULT_BASE_URL = u
      rw [hstrip]
      show (if u = "" then DEFAULT_BASE_URL else u) = u
      rw [if_neg hu]
    · intro u hb hlast hu
      rw [hb]
      have hstrip : stripTrailingSlash u = u := by
        unfold stripTrailingSlash
        rw [if_neg hlast]
      show jsOrStr (some (stripTrailingSlash u)) DEFAULT_BASE_URL = u
      rw [hstrip]
      show (if u = "" then DEFAULT_BASE_URL else u) = u
      rw [if_neg hu]
    · intro ht
      rw [ht]
      rfl
    · intro hr
      rw [hr]
      rfl

theorem claim_C8_witness :
    (mkEmailVerify ⟨"", none, none, none⟩ =
      Except.error (mkAuthenticationError "API key is required")) ∧
    (∃ cl, mkEmailVerify ⟨"key", some "https://custom.api.com/", none, none⟩ =
      Except.ok cl ∧ cl.baseUrl = "https://custom.api.com" ∧
      cl.timeout = 30000 ∧ cl.retries = 3) := by
  constructor
  · exact ((claim_C8_constructor_contract ⟨"", none, none, none⟩).1 rfl).1
  · obtain ⟨cl, hok, hkey, hnone, hslash, hnoslash, ht, hr⟩ :=
      (claim_C8_constructor_contract
        ⟨"key", some "https://custom.api.com/", none, none⟩).2 (by decide)
    refine ⟨cl, hok, ?_, ht rfl, hr rfl⟩
    exact hslash "https://custom.api.com" (by decide) (by decide)

/-- C9: in the query of GET `/verify/bulk/{jobId}/results`, `offset` is
included exactly when it is not `undefined` (including `offset = 0`),
while `limit` and `status` are included exactly when truthy (`limit`
present and nonzero, `status` present and non-empty); the path carries
the `?`-prefixed query only when some parameter was set. -/
theorem claim_C9_results_query_params (jobId : String)
    (o : BulkResultsOptions) :
    ((∃ v, ("offset", v) ∈ buildResultsParams o) ↔ o.offset ≠ none) ∧
    ((∃ v, ("limit", v) ∈ buildResultsParams o) ↔
      ∃ l, o.limit = some l ∧ l ≠ 0) ∧
    ((∃ v, ("status", v) ∈ buildResultsParams o) ↔
      ∃ s, o.status = some s ∧ s ≠ "") ∧
    (buildResultsPath jobId o =
      "/verify/bulk/" ++ jobId ++ "/results" ++
        (if paramsToString (buildResultsParams o) = "" then ""
         else "?" ++ paramsToString (buildResultsParams o))) := by
  obtain ⟨l, ofs, st⟩ := o
  refine ⟨?_, ?_, ?_, rfl⟩
  · rcases l with _ | lv <;> rcases ofs with _ | ov <;> rcases st with _ | sv <;>
      simp [buildResultsParams]
  · rcases l with _ | lv <;> rcases ofs with _ | ov <;> rcases st with _ | sv <;>
      simp [buildResultsParams]
  · rcases l with _ | lv <;> rcases ofs with _ | ov <;> rcases st with _ | sv <;>
      simp [buildResultsParams]

/-- C10: the constructor's default rules are asymmetric — a configured
`timeout` of 0 (falsy) is replaced by the default 30000 ms, while a
configured `retries` of 0 is kept; and with `retries = 0` every
retryable status (429/500/502/503) results in exactly one HTTP call
followed immediately by the raised error, with no sleep. -/
theorem claim_C10_zero_defaults_asymmetry (config : EmailVerifyConfig)
    (server : Nat → Resp) :
    (config.apiKey ≠ "" → config.timeout = some 0 →
      ∃ cl, mkEmailVerify config = Except.ok cl ∧ cl.timeout = 30000) ∧
    (config.apiKey ≠ "" → config.retries = some 0 →
      ∃ cl, mkEmailVerify config = Except.ok cl ∧ cl.retries = 0) ∧
    (retryableStatus (server 1).status = true →
      (runRequest 0 server).calls = 1 ∧
      (∃ e, (runRequest 0 server).outcome = Except.error e) ∧
      (runRequest 0 server).sleeps = []) := by
  refine ⟨?_, ?_, ?_⟩
  · intro h ht
    refine ⟨⟨config.apiKey,
      jsOrStr (config.baseUrl.map stripTrailingSlash) DEFAULT_BASE_URL,
      jsOrNum config.timeout DEFAULT_TIMEOUT,
      config.retries.getD DEFAULT_RETRIES⟩, ?_, ?_⟩
    · unfold mkEmailVerify
      rw [if_neg h]
    · rw [ht]
      rfl
  · intro h hr
    refine ⟨⟨config.apiKey,
      jsOrStr (config.baseUrl.map stripTrailingSlash) DEFAULT_BASE_URL,
      jsOrNum config.timeout DEFAULT_TIMEOUT,
      config.retries.getD DEFAULT_RETRIES⟩, ?_, ?_⟩
    · unfold mkEmailVerify
      rw [if_neg h]
    · rw [hr]
      rfl
  · intro h
    have hst := retryableStatus_cases h
    simp only [runRequest]
    rcases hst with h4 | h5
    · rw [requestFrom_status_429_last 0 server 1 h4 (by omega)]
      exact ⟨rfl, ⟨_, rfl⟩, rfl⟩
    · rw [requestFrom_status_5xx_last 0 server 1 h5 (by omega)]
      exact ⟨rfl, ⟨_, rfl⟩, rfl⟩

theorem claim_C10_witness :
    (∃ cl, mkEmailVerify ⟨"key", none, some 0, some 0⟩ = Except.ok cl ∧
      cl.timeout = 30000) ∧
    (∃ cl, mkEmailVerify ⟨"key", none, some 0, some 0⟩ = Except.ok cl ∧
      cl.retries = 0) ∧
    ((runRequest 0 (fun _ => resp500Ex)).calls = 1 ∧
      (∃ e, (runRequest 0 (fun _ => resp500Ex)).outcome = Except.error e) ∧
      (runRequest 0 (fun _ => resp500Ex)).sleeps = []) :=
  ⟨(claim_C10_zero_defaults_asymmetry ⟨"key", none, some 0, some 0⟩
      (fun _ => resp500Ex)).1 (by decide) rfl,
   (claim_C10_zero_defaults_asymmetry ⟨"key", none, some 0, some 0⟩
      (fun _ => resp500Ex)).2.1 (by decide) rfl,
   (claim_C10_zero_defaults_asymmetry ⟨"key", none, some 0, some 0⟩
      (fun _ => resp500Ex)).2.2
      (by
        show retryableStatus resp500Ex.status = true
        decide)⟩

end EmailVerifySDK
